import Mathlib

/-!
Verification of the gamekit GPU core against its specification.

The definitions below are a shallow embedding of the Rust sources under
src/gamekit/src: buffer.rs (buffer objects, staged uploads, uniforms),
pipeline.rs (frame orchestration), material.rs (render state and pipeline
caching), swapchain.rs and device.rs (present-mode selection, swapchain
recreation) and exec.rs (the main loop boundary).  GPU driver calls are
modelled by explicit result oracles (acquire/present results) and by
operation traces; handles are natural numbers.
-/

namespace Gamekit

/-! ### Buffer type tags, from struct BufferType in buffer.rs -/

namespace BufferType

def UNKNOWN : Nat := 0x0
def VERTEX : Nat := 0x1
def INDEX : Nat := 0x2
def UNIFORM : Nat := 0x3
def SHADER_STORAGE : Nat := 0x4
def STAGING : Nat := 0x5
def DYNAMIC_UNIFORM : Nat := 0x6

end BufferType

/-! ### Memory usage flags, from DeviceMemory in types.rs -/

namespace DeviceMemory

def DEVICE_LOCAL : Nat := 0x1
def HOST_COHERENT : Nat := 0x2
def HOST_VISIBLE : Nat := 0x4

end DeviceMemory

/-- One vk buffer object as created by BufferObject::new (buffer.rs):
its gamekit buffer type tag, byte size, and requested memory usage flags. -/
structure BufferObject where
  bufferType : Nat
  size : Nat
  memoryUsage : Nat
deriving DecidableEq

/-- Mirror of the flag test `0x0 != (flags & DEVICE_LOCAL)` in
DeviceMemory::new (types.rs). -/
def BufferObject.isDeviceLocal (o : BufferObject) : Bool :=
  (o.memoryUsage &&& DeviceMemory.DEVICE_LOCAL) != 0

/-- Mirror of the flag test `0x0 != (flags & HOST_VISIBLE)` in
DeviceMemory::new (types.rs). -/
def BufferObject.isHostVisible (o : BufferObject) : Bool :=
  (o.memoryUsage &&& DeviceMemory.HOST_VISIBLE) != 0

/-- struct BufferObjects (buffer.rs): the list of buffer objects backing one
typed buffer, its element byte size, buffer type tag and binding slot. -/
structure BufferObjects where
  bufferObjects : List BufferObject
  size : Nat
  bufferType : Nat
  binding : Nat
deriving DecidableEq

namespace BufferObjects

/-- BufferObjects::add. -/
def add (b : BufferObjects) (obj : BufferObject) : BufferObjects :=
  { b with bufferObjects := b.bufferObjects ++ [obj] }

/-- BufferObjects::add_vertex_buffer: device-local, transfer destination. -/
def addVertexBuffer (b : BufferObjects) : BufferObjects :=
  b.add { bufferType := b.bufferType, size := b.size,
          memoryUsage := DeviceMemory.DEVICE_LOCAL }

/-- BufferObjects::add_staging_buffer: host-visible and host-coherent. -/
def addStagingBuffer (b : BufferObjects) : BufferObjects :=
  b.add { bufferType := BufferType.STAGING, size := b.size,
          memoryUsage := DeviceMemory.HOST_VISIBLE ||| DeviceMemory.HOST_COHERENT }

/-- BufferObjects::add_index_buffer: device-local, transfer destination. -/
def addIndexBuffer (b : BufferObjects) : BufferObjects :=
  b.add { bufferType := b.bufferType, size := b.size,
          memoryUsage := DeviceMemory.DEVICE_LOCAL }

/-- BufferObjects::add_uniform_buffer: host-visible and host-coherent
(not device-local, no staging partner). -/
def addUniformBuffer (b : BufferObjects) : BufferObjects :=
  b.add { bufferType := b.bufferType, size := b.size,
          memoryUsage := DeviceMemory.HOST_VISIBLE ||| DeviceMemory.HOST_COHERENT }

/-- BufferObjects::add_shader_storage_buffer: host-visible and host-coherent. -/
def addShaderStorageBuffer (b : BufferObjects) : BufferObjects :=
  b.add { bufferType := b.bufferType, size := b.size,
          memoryUsage := DeviceMemory.HOST_VISIBLE ||| DeviceMemory.HOST_COHERENT }

/-- The `for _ in 0..num_frames { add_uniform_buffer() }` loop in
BufferObjects::new. -/
def addUniformBuffers : BufferObjects → Nat → BufferObjects
  | b, 0 => b
  | b, n + 1 => addUniformBuffers b.addUniformBuffer n

/-- BufferObjects::new (buffer.rs lines 210-242).  `frameCount` is the value
of pipeline.frame_count() read for the uniform branch. -/
def new (binding bufferType size frameCount : Nat) : BufferObjects :=
  let b : BufferObjects :=
    { bufferObjects := [], size := size, bufferType := bufferType, binding := binding }
  if bufferType = BufferType.VERTEX then
    b.addVertexBuffer.addStagingBuffer
  else if bufferType = BufferType.INDEX then
    b.addIndexBuffer.addStagingBuffer
  else if bufferType = BufferType.UNIFORM ∨ bufferType = BufferType.DYNAMIC_UNIFORM then
    addUniformBuffers b frameCount
  else
    b

end BufferObjects

/-- A write step performed by one of the buffer copy paths: either a direct
map-and-memcpy into the buffer object at a list index (copy_region_raw), or a
one-shot submitted-and-waited command-buffer copy between two buffer objects
(copy_region). -/
inductive WriteOp where
  | hostCopy (bufIndex : Nat)
  | deviceCopy (srcIndex dstIndex : Nat)
deriving DecidableEq

/-- VertexBuffer::copy_region (buffer.rs lines 333-337): memcpy into the
staging object (list index 1), then an explicit staging-to-device copy into
the device-local object (list index 0). -/
def vertexBufferWriteOps : List WriteOp :=
  [WriteOp.hostCopy 1, WriteOp.deviceCopy 1 0]

/-- IndexBuffer::copy_region (buffer.rs lines 374-378): same staged path as
the vertex buffer. -/
def indexBufferWriteOps : List WriteOp :=
  [WriteOp.hostCopy 1, WriteOp.deviceCopy 1 0]

/-- UniformBuffer::copy_region (buffer.rs lines 580-583): a direct memcpy
into the per-frame host-visible buffer object; no staging copy. -/
def uniformBufferWriteOps (frameIndex : Nat) : List WriteOp :=
  [WriteOp.hostCopy frameIndex]

/-- ShaderStorageBuffer::copy (buffer.rs lines 414-417): a direct memcpy into
the per-frame host-visible buffer object; no staging copy. -/
def shaderStorageWriteOps (frameIndex : Nat) : List WriteOp :=
  [WriteOp.hostCopy frameIndex]

/-- Checks that a buffer object list is exactly one device-local object
paired with one host-visible object of the same byte size. -/
def pairedStagedLayout (objs : List BufferObject) : Bool :=
  match objs.filter (fun o => o.isDeviceLocal),
        objs.filter (fun o => o.isHostVisible) with
  | [d], [s] => d.size == s.size
  | _, _ => false

/-! ### Dynamic uniforms, from struct Uniform in buffer.rs -/

/-- The offset/size state of Uniform of T (buffer.rs): current byte offset,
element byte size, aligned element size and total dynamic byte size. -/
structure Uniform where
  offset : Nat
  dataSize : Nat
  alignedDataSize : Nat
  dynamicSize : Nat
deriving DecidableEq

/-- Uniform::new (buffer.rs lines 626-650).  `dataSize` is size_of T,
`deviceAlignment` is device.limits.uniform_buffer_alignment and
`dynamicArrayElements` the number of extra array elements. -/
def Uniform.new (dataSize deviceAlignment dynamicArrayElements : Nat) : Uniform :=
  let alignment := max deviceAlignment 4
  let alignedDataSize := (dataSize + alignment) - (dataSize % alignment)
  let dynamicSize :=
    if dynamicArrayElements > 0 then alignedDataSize * (1 + dynamicArrayElements) else 0
  { offset := 0, dataSize := dataSize,
    alignedDataSize := alignedDataSize, dynamicSize := dynamicSize }

/-- Uniform::set_offset (buffer.rs lines 674-677). -/
def Uniform.setOffset (u : Uniform) (ofs : Nat) : Uniform :=
  { u with offset := ofs }

/-- Uniform::set_array_index (buffer.rs lines 668-672): returns the updated
uniform together with the previous array index. -/
def Uniform.setArrayIndex (u : Uniform) (idx : Nat) : Uniform × Nat :=
  let oldIdx := u.offset / u.alignedDataSize
  (u.setOffset (idx * u.alignedDataSize), oldIdx)

/-- Modelled from the spec words only, for comparison with the code: the
stride the specification asserts, ceil(E/A) times A. -/
def specAlignedStride (elementSize deviceAlignment : Nat) : Nat :=
  ((elementSize + deviceAlignment - 1) / deviceAlignment) * deviceAlignment

/-! ### Frame pipeline, from pipeline.rs -/

/-- Constants::FRAME_BUFFER_COUNT (constants.rs). -/
def FRAME_BUFFER_COUNT : Nat := 2

/-- Result of acquire_next_image as observed by begin_frame: the Ok branch
carries the image index and the suboptimal flag. -/
inductive AcquireResult where
  | ok (idx : Nat) (suboptimal : Bool)
  | err
deriving DecidableEq

/-- Result of queue_present as observed by end_frame: the Ok branch carries
the suboptimal flag. -/
inductive PresentResult where
  | ok (suboptimal : Bool)
  | err
deriving DecidableEq

/-- A present result that makes end_frame set the reinit flag: suboptimal or
erroneous. -/
def PresentResult.setsReinit : PresentResult → Bool
  | .ok suboptimal => suboptimal
  | .err => true

/-- Driver-level operations issued by begin_frame/end_frame, recorded as a
trace in order of execution. -/
inductive GpuOp where
  | destroyPipeline
  | createPipeline
  | fenceWait (slot : Nat)
  | acquireImage
  | fenceReset (slot : Nat)
  | cmdReset
  | cmdBegin
  | beginRenderPass
  | endRenderPass
  | cmdEnd
  | submit (slot : Nat)
  | present
deriving DecidableEq

/-- The mutable state of struct Pipeline (pipeline.rs) relevant to frame
orchestration: frame slot count and index, last acquired image index, the
deferred reinit flag, and the per-slot submission fences (true means
signaled; Frame::new creates them signaled). -/
structure PipelineState where
  frameCount : Nat
  frameIndex : Nat
  imageIndex : Nat
  needReinit : Bool
  fences : List Bool
deriving DecidableEq

namespace PipelineState

/-- Pipeline::create_pipeline (pipeline.rs lines 97-125): rebuilds the
swapchain and all frames and resets the bookkeeping fields.  The fences are
the fresh signaled fences of the FRAME_BUFFER_COUNT new frames. -/
def createPipeline (s : PipelineState) : PipelineState :=
  { s with frameCount := FRAME_BUFFER_COUNT,
           frameIndex := 0,
           imageIndex := 0,
           needReinit := false,
           fences := List.replicate FRAME_BUFFER_COUNT true }

/-- Pipeline::begin_frame (pipeline.rs lines 379-459), driven by the acquire
result oracle.  Returns the new state, the trace of driver operations in
execution order, and Ok of the reinitialized flag or the abort error. -/
def beginFrame (s : PipelineState) (acq : AcquireResult) :
    PipelineState × List GpuOp × Except String Bool :=
  let (s1, reinitOps, reinitialized) :=
    if s.needReinit then
      (s.createPipeline, [GpuOp.destroyPipeline, GpuOp.createPipeline], true)
    else
      (s, [], false)
  let slot := s1.frameIndex
  let (needsReinit, imageIndex) :=
    match acq with
    | .ok idx suboptimal => if suboptimal then (true, 0) else (false, idx)
    | .err => (true, 0)
  let ops := reinitOps ++ [GpuOp.fenceWait slot, GpuOp.acquireImage, GpuOp.fenceReset slot]
  let s2 := { s1 with fences := s1.fences.set slot false }
  if needsReinit then
    (s2, ops, Except.error "pipeline needs to be reinitialized")
  else
    ({ s2 with imageIndex := imageIndex },
     ops ++ [GpuOp.cmdReset, GpuOp.cmdBegin, GpuOp.beginRenderPass],
     Except.ok reinitialized)

/-- Pipeline::end_frame (pipeline.rs lines 461-515), driven by the present
result oracle.  The submit signals the slot fence on completion, modelled by
setting it back to signaled. -/
def endFrame (s : PipelineState) (pres : PresentResult) :
    PipelineState × List GpuOp × Except String Unit :=
  if s.needReinit then
    (s, [], Except.error "pipeline needs to be reinitialized")
  else
    let slot := s.frameIndex
    let ops := [GpuOp.endRenderPass, GpuOp.cmdEnd, GpuOp.submit slot, GpuOp.present]
    let s1 := { s with fences := s.fences.set slot true }
    let s2 := { s1 with needReinit := pres.setsReinit }
    let s3 :=
      if !s2.needReinit then
        { s2 with frameIndex := (s2.frameIndex + 1) % s2.frameCount }
      else
        s2
    (s3, ops, Except.ok ())

/-- Folds end_frame over a list of present results, keeping only the state
(the traces and unit results are dropped). -/
def endFrames (s : PipelineState) : List PresentResult → PipelineState
  | [] => s
  | pres :: rest => endFrames (s.endFrame pres).1 rest

end PipelineState

/-- One iteration body of the Exec::run main loop (exec.rs lines 143-193)
restricted to the frame boundary: begin_frame, then end_frame, with an error
from either breaking the loop (running becomes false). -/
structure ExecState where
  running : Bool
  pipeline : PipelineState
deriving DecidableEq

/-- The begin_frame/end_frame portion of one Exec::run loop iteration
(exec.rs lines 162-191): an Err from begin_frame or end_frame breaks the
loop. -/
def ExecState.frameStep (e : ExecState) (acq : AcquireResult) (pres : PresentResult) :
    ExecState :=
  let (p1, _, r1) := e.pipeline.beginFrame acq
  match r1 with
  | .error _ => { running := false, pipeline := p1 }
  | .ok _ =>
    let (p2, _, r2) := p1.endFrame pres
    match r2 with
    | .error _ => { running := false, pipeline := p2 }
    | .ok _ => { e with pipeline := p2 }

/-! ### Render state and materials, from material.rs -/

namespace BlendMode

def NORMAL : Nat := 0x1
def ADDITIVE : Nat := 0x2
def MULTIPLY : Nat := 0x3

end BlendMode

/-- struct RenderState (material.rs lines 30-38). -/
structure RenderState where
  modified : Bool
  enableBlending : Bool
  blendMode : Nat
  backfaceCulling : Bool
  frontfaceClockwise : Bool
  depthTesting : Bool
  depthWriting : Bool
deriving DecidableEq

namespace RenderState

/-- RenderState::default (material.rs lines 40-52). -/
def default : RenderState :=
  { modified := true, enableBlending := true, blendMode := BlendMode.NORMAL,
    backfaceCulling := true, frontfaceClockwise := false,
    depthTesting := false, depthWriting := false }

/-- RenderState::set_blending (material.rs lines 68-74). -/
def setBlending (s : RenderState) (val : Bool) : RenderState :=
  if val ≠ s.enableBlending then { s with enableBlending := val, modified := true } else s

/-- RenderState::set_backface_culling (material.rs lines 84-90). -/
def setBackfaceCulling (s : RenderState) (val : Bool) : RenderState :=
  if val ≠ s.backfaceCulling then { s with backfaceCulling := val, modified := true } else s

/-- RenderState::set_depth_testing (material.rs lines 100-106), exactly as in
the source: it compares against and assigns to the backface_culling field. -/
def setDepthTesting (s : RenderState) (val : Bool) : RenderState :=
  if val ≠ s.backfaceCulling then { s with backfaceCulling := val, modified := true } else s

/-- RenderState::set_depth_writing (material.rs lines 108-114). -/
def setDepthWriting (s : RenderState) (val : Bool) : RenderState :=
  if val ≠ s.depthWriting then { s with depthWriting := val, modified := true } else s

/-- RenderState::push (material.rs lines 116-172): issues the dynamic-state
commands and clears the modified flag; only the flag matters here. -/
def push (s : RenderState) : RenderState :=
  { s with modified := false }

end RenderState

/-- The state of struct Material (material.rs) relevant to pipeline and
descriptor-set caching.  GPU handles are naturals; 0 stands for the vk null
handle, and fresh handles are drawn from an allocation counter threaded
through validation. -/
structure Material where
  invalidated : Bool
  numShaders : Nat
  numUniforms : Nat
  numTextures : Nat
  numPushConstantRanges : Nat
  graphicsPipeline : Nat
  pipelineLayout : Nat
  descriptorSetLayout : Nat
  descriptorSets : List Nat
  renderState : RenderState
deriving DecidableEq

namespace Material

/-- Material::new (material.rs lines 231-249): starts invalidated with null
handles and no bindings. -/
def new : Material :=
  { invalidated := true, numShaders := 0, numUniforms := 0, numTextures := 0,
    numPushConstantRanges := 0, graphicsPipeline := 0, pipelineLayout := 0,
    descriptorSetLayout := 0, descriptorSets := [], renderState := RenderState.default }

/-- Material::add_shader (material.rs lines 298-313): records the stage and
sets the invalidated flag. -/
def addShader (m : Material) : Material :=
  { m with numShaders := m.numShaders + 1, invalidated := true }

/-- Material::add_push_constants (material.rs lines 315-323). -/
def addPushConstants (m : Material) : Material :=
  { m with numPushConstantRanges := m.numPushConstantRanges + 1, invalidated := true }

/-- Material::add_uniform (material.rs lines 325-330). -/
def addUniform (m : Material) : Material :=
  { m with numUniforms := m.numUniforms + 1, invalidated := true }

/-- Material::add_texture (material.rs lines 332-337). -/
def addTexture (m : Material) : Material :=
  { m with numTextures := m.numTextures + 1, invalidated := true }

/-- Material::set_depth_testing (material.rs line 295): delegates to
RenderState::set_depth_testing. -/
def setDepthTesting (m : Material) (val : Bool) : Material :=
  { m with renderState := m.renderState.setDepthTesting val }

/-- Material::validate_pipeline (material.rs lines 407-421): a no-op when the
invalidated flag is clear; otherwise clears the flag, frees the descriptor
sets and pipeline objects, and rebuilds them with fresh handles.  Returns the
new material, the next fresh handle, and the number of recompilations
performed (zero or one).  `frameCount` is pipeline.frame_count(). -/
def validatePipeline (m : Material) (frameCount handle : Nat) : Material × Nat × Nat :=
  if !m.invalidated then
    (m, handle, 0)
  else
    let m1 := { m with invalidated := false }
    let m2 := { m1 with descriptorSets := [], graphicsPipeline := 0,
                        pipelineLayout := 0, descriptorSetLayout := 0 }
    let hasBindings := m2.numUniforms + m2.numTextures > 0
    let dsl := if hasBindings then handle else 0
    let m3 := { m2 with descriptorSetLayout := dsl,
                        pipelineLayout := handle + 1,
                        graphicsPipeline := handle + 2 }
    let m4 :=
      if hasBindings then
        { m3 with descriptorSets := (List.range frameCount).map (fun i => handle + 3 + i) }
      else
        m3
    (m4, handle + 3 + frameCount, 1)

/-- Material::bind (material.rs lines 352-357): validate_pipeline, bind the
pipeline, push the render state (clearing its modified flag), bind the
descriptor sets.  Returns the new material, the next fresh handle, and the
number of recompilations performed by this call. -/
def bind (m : Material) (frameCount handle : Nat) : Material × Nat × Nat :=
  let (m1, h1, c1) := m.validatePipeline frameCount handle
  let m2 := { m1 with renderState := m1.renderState.push }
  (m2, h1, c1)

end Material

/-! ### Swapchain and present-mode selection, from swapchain.rs and device.rs -/

/-- The Vulkan present modes relevant to the selection logic. -/
inductive PresentModeKHR where
  | IMMEDIATE
  | MAILBOX
  | FIFO
  | FIFO_RELAXED
deriving DecidableEq

/-- The mailbox scan over the adapter's advertised present modes in
Device::create_physical_device (device.rs lines 213-225). -/
def checkMailboxSupport : List PresentModeKHR → Bool
  | [] => false
  | mode :: rest =>
    if mode = PresentModeKHR.MAILBOX then true else checkMailboxSupport rest

/-- The present-mode choice in SwapChain::new (swapchain.rs line 65). -/
def selectPresentMode (mailboxModeSupport : Bool) : PresentModeKHR :=
  if mailboxModeSupport then PresentModeKHR.MAILBOX else PresentModeKHR.FIFO

/-- struct SwapChain (swapchain.rs): swapchain device and object handles as
naturals, extent, surface format tag, and the stored image count. -/
structure SwapChain where
  device : Nat
  obj : Nat
  extentW : Nat
  extentH : Nat
  format : Nat
  imageCount : Nat
deriving DecidableEq

/-- SwapChain::create_swapchain (swapchain.rs lines 108-117): constructs a
fresh swapchain via SwapChain::new (here the parameter `n`) and assigns its
device, obj, extent and format into self; the image_count field is not
assigned. -/
def SwapChain.createSwapchain (s n : SwapChain) : SwapChain :=
  { s with device := n.device, obj := n.obj,
           extentW := n.extentW, extentH := n.extentH, format := n.format }

/-- The image-count negotiation in SwapChain::new (swapchain.rs lines
59-62). -/
def computeImageCount (minImageCount maxImageCount : Nat) : Nat :=
  let imageCount := minImageCount + 1
  if maxImageCount > 0 ∧ imageCount > maxImageCount then maxImageCount else imageCount

/-! ### Sample states used by witnesses and counterexamples -/

/-- A freshly constructed pipeline state as produced by Pipeline::new: two
frame slots, index zero, signaled fences, no pending reinit. -/
def freshPipeline : PipelineState :=
  { frameCount := 2, frameIndex := 0, imageIndex := 0, needReinit := false,
    fences := [true, true] }

/-- A pipeline state in which a previous end_frame recorded the reinit flag
and the frame index is nonzero. -/
def pendingReinitPipeline : PipelineState :=
  { frameCount := 2, frameIndex := 1, imageIndex := 0, needReinit := true,
    fences := [true, true] }

/-! ### Helper lemmas -/

/-- The stride computed by Uniform::new, written as a multiple of the
effective alignment. -/
theorem alignedDataSize_eq_mul (E M : Nat) :
    (E + M) - E % M = (E / M + 1) * M := by
  have hdm := Nat.div_add_mod E M
  calc (E + M) - E % M
      = (M * (E / M) + E % M + M) - E % M := by rw [hdm]
    _ = (M * (E / M) + M + E % M) - E % M := by rw [Nat.add_right_comm]
    _ = M * (E / M) + M := by simp
    _ = (E / M + 1) * M := by ring

/-- The uniform-buffer loop in BufferObjects::new appends one host-visible
buffer object per frame slot. -/
theorem addUniformBuffers_objects (b : BufferObjects) (n : Nat) :
    (BufferObjects.addUniformBuffers b n).bufferObjects
      = b.bufferObjects ++ List.replicate n
          { bufferType := b.bufferType, size := b.size,
            memoryUsage := DeviceMemory.HOST_VISIBLE ||| DeviceMemory.HOST_COHERENT } := by
  induction n generalizing b with
  | zero => simp [BufferObjects.addUniformBuffers]
  | succ n ih =>
    rw [BufferObjects.addUniformBuffers, ih]
    simp [BufferObjects.addUniformBuffer, BufferObjects.add, List.replicate_succ]

/-- Resetting a fence slot leaves that slot unsignaled, also when the index
is out of range of the fence list. -/
theorem getElem?_set_getD_false (l : List Bool) (i : Nat) :
    ((l.set i false)[i]?).getD false = false := by
  rcases Nat.lt_or_ge i l.length with h | h
  · rw [List.getElem?_set_self (by simpa using h)]
    rfl
  · rw [List.set_eq_of_length_le h, List.getElem?_eq_none h]
    rfl

/-! ### Claim C1 -/

/-- Claim C1 as stated is false on the code: for a dynamic uniform of element
size 4 under device alignment 4, selecting array index 1 yields byte offset
8 (the code rounds an already aligned size up by one extra alignment unit),
not 1 times ceil(4/4) times 4 = 4. -/
theorem C1_offset_counterexample :
    ¬ (((Uniform.new 4 4 2).setArrayIndex 1).1.offset
        = 1 * specAlignedStride 4 4) := by decide

/-- Claim C1 amended: selecting index i on a dynamic uniform of element size
E and device alignment A sets the byte offset to exactly
i * (floor(E / max(A,4)) + 1) * max(A,4) (equal to i * ceil(E/A) * A only
when A does not divide E), and for every device alignment A dividing
max(A,4) - in particular every power of two - the offset is a multiple of A
for all i. -/
theorem C1_offset_amended (E A N i : Nat) (h : A ∣ max A 4) :
    (((Uniform.new E A N).setArrayIndex i).1.offset
        = i * ((E / max A 4 + 1) * max A 4))
    ∧ A ∣ (((Uniform.new E A N).setArrayIndex i).1.offset) := by
  have hoff : (((Uniform.new E A N).setArrayIndex i).1.offset
      = i * ((E + max A 4) - E % max A 4)) := rfl
  rw [hoff, alignedDataSize_eq_mul]
  exact ⟨rfl, (h.trans (dvd_mul_left (max A 4) (E / max A 4 + 1))).mul_left i⟩

/-- Witness for the amended claim C1 at E = 4, A = 4, N = 2, i = 3. -/
theorem C1_offset_amended_witness :
    4 ∣ max 4 4
    ∧ ((((Uniform.new 4 4 2).setArrayIndex 3).1.offset
          = 3 * ((4 / max 4 4 + 1) * max 4 4))
        ∧ 4 ∣ (((Uniform.new 4 4 2).setArrayIndex 3).1.offset)) :=
  ⟨by decide, C1_offset_amended 4 4 2 3 (by decide)⟩

/-! ### Claim C2 -/

/-- Claim C2 as stated is false on the code: a uniform buffer (element size
64, two frame slots) is not backed by one device-local plus one host-visible
staging buffer - its construction creates only per-frame host-visible
buffers - and its write path is a single direct host copy with no
staging-to-device copy. -/
theorem C2_staged_pair_counterexample :
    pairedStagedLayout (BufferObjects.new 0 BufferType.UNIFORM 64 2).bufferObjects = false
    ∧ uniformBufferWriteOps 0 ≠ [WriteOp.hostCopy 1, WriteOp.deviceCopy 1 0] := by
  decide

/-- Claim C2 amended: only Vertex and Index buffers are created as one
device-local buffer paired with one host-visible staging buffer of equal
size, and only their writes copy into staging (list index 1) and then issue
an explicit staging-to-device copy (into list index 0); Uniform and
DynamicUniform buffers are created as one host-visible buffer per frame slot
and written by a direct host copy; Storage buffers are created with no
backing objects (per-frame host-visible instances grow on demand) and are
written by a direct host copy. -/
theorem C2_buffer_layout_amended (binding size fc fi : Nat) :
    pairedStagedLayout (BufferObjects.new binding BufferType.VERTEX size fc).bufferObjects = true
    ∧ pairedStagedLayout (BufferObjects.new binding BufferType.INDEX size fc).bufferObjects = true
    ∧ (BufferObjects.new binding BufferType.VERTEX size fc).bufferObjects =
        [{ bufferType := BufferType.VERTEX, size := size,
           memoryUsage := DeviceMemory.DEVICE_LOCAL },
         { bufferType := BufferType.STAGING, size := size,
           memoryUsage := DeviceMemory.HOST_VISIBLE ||| DeviceMemory.HOST_COHERENT }]
    ∧ vertexBufferWriteOps = [WriteOp.hostCopy 1, WriteOp.deviceCopy 1 0]
    ∧ indexBufferWriteOps = [WriteOp.hostCopy 1, WriteOp.deviceCopy 1 0]
    ∧ (BufferObjects.new binding BufferType.UNIFORM size fc).bufferObjects =
        List.replicate fc
          { bufferType := BufferType.UNIFORM, size := size,
            memoryUsage := DeviceMemory.HOST_VISIBLE ||| DeviceMemory.HOST_COHERENT }
    ∧ (BufferObjects.new binding BufferType.SHADER_STORAGE size fc).bufferObjects = []
    ∧ uniformBufferWriteOps fi = [WriteOp.hostCopy fi]
    ∧ shaderStorageWriteOps fi = [WriteOp.hostCopy fi] := by
  refine ⟨?_, ?_, ?_, rfl, rfl, ?_, ?_, rfl, rfl⟩
  · have h64 : ((6 : Nat) &&& 4 != 0) = true := by decide
    unfold pairedStagedLayout BufferObjects.new
    simp [BufferObjects.addVertexBuffer, BufferObjects.addStagingBuffer, BufferObjects.add,
      BufferObject.isDeviceLocal, BufferObject.isHostVisible, BufferType.VERTEX,
      BufferType.STAGING, DeviceMemory.DEVICE_LOCAL, DeviceMemory.HOST_VISIBLE,
      DeviceMemory.HOST_COHERENT, List.filter, h64]
  · have h64 : ((6 : Nat) &&& 4 != 0) = true := by decide
    unfold pairedStagedLayout BufferObjects.new
    simp [BufferObjects.addIndexBuffer, BufferObjects.addStagingBuffer, BufferObjects.add,
      BufferObject.isDeviceLocal, BufferObject.isHostVisible, BufferType.VERTEX, BufferType.INDEX,
      BufferType.STAGING, DeviceMemory.DEVICE_LOCAL, DeviceMemory.HOST_VISIBLE,
      DeviceMemory.HOST_COHERENT, List.filter, h64]
  · simp [BufferObjects.new, BufferObjects.addVertexBuffer, BufferObjects.addStagingBuffer,
          BufferObjects.add, BufferType.VERTEX, BufferType.STAGING]
  · rw [show BufferObjects.new binding BufferType.UNIFORM size fc
          = BufferObjects.addUniformBuffers
              { bufferObjects := [], size := size, bufferType := BufferType.UNIFORM,
                binding := binding } fc from rfl,
       addUniformBuffers_objects]
    simp
  · rfl

/-! ### Claim C3 -/

/-- One successful, non-suboptimal end_frame on a state with the reinit flag
clear advances the frame index round-robin and keeps the flag clear. -/
theorem endFrame_ok_false (s : PipelineState) (h : s.needReinit = false) :
    (s.endFrame (PresentResult.ok false)).1
      = { s with fences := s.fences.set s.frameIndex true,
                 needReinit := false,
                 frameIndex := (s.frameIndex + 1) % s.frameCount } := by
  simp [PipelineState.endFrame, h, PresentResult.setsReinit]

/-- Folding end_frame over successful present results advances the frame
index by the number of calls, modulo the slot count. -/
theorem endFrames_all_ok (s : PipelineState) (rs : List PresentResult)
    (h0 : 0 < s.frameCount) (hI : s.frameIndex < s.frameCount)
    (hR : s.needReinit = false)
    (hall : ∀ r ∈ rs, r = PresentResult.ok false) :
    (PipelineState.endFrames s rs).frameIndex = (s.frameIndex + rs.length) % s.frameCount := by
  induction rs generalizing s with
  | nil =>
    simp [PipelineState.endFrames, Nat.mod_eq_of_lt hI]
  | cons r rest ih =>
    have hr : r = PresentResult.ok false := hall r (List.mem_cons_self r rest)
    subst hr
    rw [PipelineState.endFrames, endFrame_ok_false s hR]
    have hstep := ih
      { frameCount := s.frameCount, frameIndex := (s.frameIndex + 1) % s.frameCount,
        imageIndex := s.imageIndex, needReinit := false,
        fences := s.fences.set s.frameIndex true }
      h0 (Nat.mod_lt _ h0) rfl
      (fun q hq => hall q (List.mem_cons_of_mem _ hq))
    rw [hstep]
    have harith : s.frameIndex + 1 + rest.length = s.frameIndex + (rest.length + 1) := by
      omega
    rw [Nat.mod_add_mod, harith, List.length_cons]

/-- Claim C3: over any run of end_frame calls whose present results are all
successful and not suboptimal, the frame index advances by one modulo the
slot count per call, cycling round-robin; and any end_frame whose present
result sets the reinit flag (suboptimal or erroneous) leaves the frame index
unchanged, as does an end_frame entered with the flag already set. -/
theorem C3_frame_index_round_robin (s s2 : PipelineState) (rs : List PresentResult)
    (pres : PresentResult)
    (h0 : 0 < s.frameCount) (hI : s.frameIndex < s.frameCount)
    (hR : s.needReinit = false)
    (hall : ∀ r ∈ rs, r = PresentResult.ok false)
    (hp : pres.setsReinit = true) :
    (PipelineState.endFrames s rs).frameIndex = (s.frameIndex + rs.length) % s.frameCount
    ∧ (s2.endFrame pres).1.frameIndex = s2.frameIndex := by
  refine ⟨endFrames_all_ok s rs h0 hI hR hall, ?_⟩
  cases h2 : s2.needReinit <;> simp [PipelineState.endFrame, h2, hp]

/-- Witness for claim C3: a fresh two-slot pipeline, three successful
presents, and one suboptimal present. -/
theorem C3_frame_index_round_robin_witness :
    (PipelineState.endFrames freshPipeline
        [PresentResult.ok false, PresentResult.ok false, PresentResult.ok false]).frameIndex
      = (freshPipeline.frameIndex + 3) % freshPipeline.frameCount
    ∧ (freshPipeline.endFrame (PresentResult.ok true)).1.frameIndex
      = freshPipeline.frameIndex :=
  C3_frame_index_round_robin freshPipeline freshPipeline
    [PresentResult.ok false, PresentResult.ok false, PresentResult.ok false]
    (PresentResult.ok true)
    (by decide) (by decide) (by decide) (by decide) (by decide)

/-! ### Claim C4 -/

/-- Claim C4 is false on the code: after begin_frame aborts on an erroneous
image acquisition, the pipeline's need_reinit flag is still clear, so the
next begin_frame performs no teardown-and-rebuild. -/
theorem C4_counterexample :
    ((freshPipeline.beginFrame AcquireResult.err).2.2).isOk = false
    ∧ (freshPipeline.beginFrame AcquireResult.err).1.needReinit = false
    ∧ GpuOp.destroyPipeline ∉
        (((freshPipeline.beginFrame AcquireResult.err).1.beginFrame
            (AcquireResult.ok 0 false)).2.1)
    ∧ GpuOp.createPipeline ∉
        (((freshPipeline.beginFrame AcquireResult.err).1.beginFrame
            (AcquireResult.ok 0 false)).2.1) := by
  decide

/-- Claim C4 amended: when image acquisition returns an error or a
suboptimal result, begin_frame aborts the frame without recording draw
commands and surfaces the error to the caller (in Exec::run the surfaced
error breaks the main loop); it does not record the needs-reinit flag, which
is left clear, so the next begin_frame performs no teardown-and-rebuild on
that account. -/
theorem C4_acquire_failure_amended (p : PipelineState) (acq : AcquireResult)
    (pres : PresentResult)
    (hfail : acq = AcquireResult.err ∨ ∃ k, acq = AcquireResult.ok k true) :
    ((p.beginFrame acq).2.2).isOk = false
    ∧ (p.beginFrame acq).1.needReinit = false
    ∧ GpuOp.beginRenderPass ∉ (p.beginFrame acq).2.1
    ∧ GpuOp.cmdBegin ∉ (p.beginFrame acq).2.1
    ∧ (ExecState.frameStep { running := true, pipeline := p } acq pres).running = false := by
  cases hnr : p.needReinit <;>
    rcases hfail with h | ⟨k, h⟩ <;> subst h <;>
    simp [PipelineState.beginFrame, ExecState.frameStep, PipelineState.createPipeline, hnr,
      Except.isOk, Except.toBool]

/-- Witness for the amended claim C4: suboptimal acquisition on a fresh
pipeline. -/
theorem C4_acquire_failure_amended_witness :
    ((freshPipeline.beginFrame (AcquireResult.ok 0 true)).2.2).isOk = false
    ∧ (freshPipeline.beginFrame (AcquireResult.ok 0 true)).1.needReinit = false
    ∧ GpuOp.beginRenderPass ∉ (freshPipeline.beginFrame (AcquireResult.ok 0 true)).2.1
    ∧ GpuOp.cmdBegin ∉ (freshPipeline.beginFrame (AcquireResult.ok 0 true)).2.1
    ∧ (ExecState.frameStep { running := true, pipeline := freshPipeline }
        (AcquireResult.ok 0 true) (PresentResult.ok false)).running = false :=
  C4_acquire_failure_amended freshPipeline (AcquireResult.ok 0 true) (PresentResult.ok false)
    (Or.inr ⟨0, rfl⟩)

/-! ### Claim C8 -/

/-- Claim C8: whenever begin_frame returns Ok true (a reinitialization was
performed this call), the frame index is zero and the need-reinit flag is
clear afterwards, whatever the state before the call. -/
theorem C8_reinit_resets_index (s : PipelineState) (acq : AcquireResult)
    (h : (s.beginFrame acq).2.2 = Except.ok true) :
    (s.beginFrame acq).1.frameIndex = 0
    ∧ (s.beginFrame acq).1.needReinit = false := by
  cases hnr : s.needReinit <;>
    rcases acq with ⟨k, sub⟩ | _ <;>
    first
      | (cases sub <;>
          simp_all [PipelineState.beginFrame, PipelineState.createPipeline])
      | simp_all [PipelineState.beginFrame, PipelineState.createPipeline]

/-- Witness for claim C8: a pipeline with a pending reinit and frame index
one, followed by a successful acquisition. -/
theorem C8_reinit_resets_index_witness :
    (pendingReinitPipeline.beginFrame (AcquireResult.ok 0 false)).1.frameIndex = 0
    ∧ (pendingReinitPipeline.beginFrame (AcquireResult.ok 0 false)).1.needReinit = false :=
  C8_reinit_resets_index pendingReinitPipeline (AcquireResult.ok 0 false) rfl

/-! ### Claim C9 -/

/-- Claim C9: on a begin_frame whose acquisition fails or is suboptimal, the
slot's fence has been waited on and then reset before the error is returned
(the trace ends wait, acquire, reset), no submission is issued, and the
fence is left unsignaled. -/
theorem C9_fence_consumed_on_error (s : PipelineState) (acq : AcquireResult)
    (hfail : acq = AcquireResult.err ∨ ∃ k, acq = AcquireResult.ok k true) :
    (s.beginFrame acq).2.1
      = (if s.needReinit then [GpuOp.destroyPipeline, GpuOp.createPipeline] else [])
        ++ [GpuOp.fenceWait (if s.needReinit then 0 else s.frameIndex),
            GpuOp.acquireImage,
            GpuOp.fenceReset (if s.needReinit then 0 else s.frameIndex)]
    ∧ ((s.beginFrame acq).2.2).isOk = false
    ∧ (s.beginFrame acq).1.fences.getD
        (if s.needReinit then 0 else s.frameIndex) false = false
    ∧ (∀ k, GpuOp.submit k ∉ (s.beginFrame acq).2.1) := by
  cases hnr : s.needReinit <;>
    rcases hfail with h | ⟨k, h⟩ <;> subst h <;>
    simp [PipelineState.beginFrame, PipelineState.createPipeline, hnr, Except.isOk,
      Except.toBool, getElem?_set_getD_false]

/-- Witness for claim C9: erroneous acquisition on a fresh pipeline. -/
theorem C9_fence_consumed_on_error_witness :
    (freshPipeline.beginFrame AcquireResult.err).2.1
      = (if freshPipeline.needReinit then [GpuOp.destroyPipeline, GpuOp.createPipeline] else [])
        ++ [GpuOp.fenceWait (if freshPipeline.needReinit then 0 else freshPipeline.frameIndex),
            GpuOp.acquireImage,
            GpuOp.fenceReset (if freshPipeline.needReinit then 0 else freshPipeline.frameIndex)]
    ∧ ((freshPipeline.beginFrame AcquireResult.err).2.2).isOk = false
    ∧ (freshPipeline.beginFrame AcquireResult.err).1.fences.getD
        (if freshPipeline.needReinit then 0 else freshPipeline.frameIndex) false = false
    ∧ (∀ k, GpuOp.submit k ∉ (freshPipeline.beginFrame AcquireResult.err).2.1) :=
  C9_fence_consumed_on_error freshPipeline AcquireResult.err (Or.inl rfl)

/-! ### Claim C5 -/

/-- Claim C5: RenderState::set_depth_testing (and the Material setter that
delegates to it) assigns its argument to the backface_culling field -
setting the modified flag only when the argument differs from the current
backface_culling value - and leaves the depth_testing field unchanged in
every case. -/
theorem C5_set_depth_testing_mutates_culling (s : RenderState) (m : Material) (v : Bool) :
    (s.setDepthTesting v).backfaceCulling = v
    ∧ (s.setDepthTesting v).depthTesting = s.depthTesting
    ∧ (s.setDepthTesting v).depthWriting = s.depthWriting
    ∧ (m.setDepthTesting v).renderState.backfaceCulling = v
    ∧ (m.setDepthTesting v).renderState.depthTesting = m.renderState.depthTesting := by
  have key : ∀ (t : RenderState),
      (t.setDepthTesting v).backfaceCulling = v
      ∧ (t.setDepthTesting v).depthTesting = t.depthTesting
      ∧ (t.setDepthTesting v).depthWriting = t.depthWriting := by
    intro t
    unfold RenderState.setDepthTesting
    by_cases h : v = t.backfaceCulling
    · simp [h]
    · simp [h]
  exact ⟨(key s).1, (key s).2.1, (key s).2.2,
    (key m.renderState).1, (key m.renderState).2.1⟩

/-! ### Claim C6 -/

/-- Binding a material whose invalidated flag and render-state modified flag
are both clear is the identity and performs no recompilation. -/
theorem Material.bind_clean (m : Material) (fc h : Nat)
    (hc : m.invalidated = false) (hm : m.renderState.modified = false) :
    m.bind fc h = (m, h, 0) := by
  cases m with
  | mk inv ns nu nt np gp pl dsl dss rs =>
    cases rs with
    | mk md bl bm bc fw dt dw =>
      simp only [Material.invalidated] at hc
      simp only at hm
      subst hc
      subst hm
      simp [Material.bind, Material.validatePipeline, RenderState.push]

/-- Claim C6: binding a dirty material twice with no intervening builder
call recompiles the pipeline and descriptor sets exactly once in total - the
second bind returns the material, handle counter and a zero recompile count
unchanged - and validate_pipeline on any material whose invalidated flag is
clear is a no-op. -/
theorem C6_bind_recompiles_once (m m2 : Material) (fc h1 h2 h3 : Nat)
    (hdirty : m.invalidated = true) (hclean : m2.invalidated = false) :
    (m.bind fc h1).2.2 = 1
    ∧ (m.bind fc h1).1.bind fc h2 = ((m.bind fc h1).1, h2, 0)
    ∧ m2.validatePipeline fc h3 = (m2, h3, 0) := by
  refine ⟨?_, ?_, ?_⟩
  · simp [Material.bind, Material.validatePipeline, hdirty]
  · have h1inv : (m.bind fc h1).1.invalidated = false := by
      by_cases hb : m.numUniforms + m.numTextures > 0 <;>
        simp [Material.bind, Material.validatePipeline, hdirty, hb]
    have h1mod : (m.bind fc h1).1.renderState.modified = false := by
      by_cases hb : m.numUniforms + m.numTextures > 0 <;>
        simp [Material.bind, Material.validatePipeline, hdirty, hb, RenderState.push]
    exact Material.bind_clean (m.bind fc h1).1 fc h2 h1inv h1mod
  · simp [Material.validatePipeline, hclean]

/-- Witness for claim C6: a fresh material with one shader, bound twice. -/
theorem C6_bind_recompiles_once_witness :
    (Material.new.addShader.bind 2 10).2.2 = 1
    ∧ (Material.new.addShader.bind 2 10).1.bind 2 20
        = ((Material.new.addShader.bind 2 10).1, 20, 0)
    ∧ (Material.new.addShader.bind 2 10).1.validatePipeline 2 30
        = ((Material.new.addShader.bind 2 10).1, 30, 0) :=
  C6_bind_recompiles_once Material.new.addShader (Material.new.addShader.bind 2 10).1
    2 10 20 30 rfl rfl

/-! ### Claim C7 -/

/-- The mailbox scan returns true exactly when MAILBOX is among the
advertised present modes. -/
theorem checkMailboxSupport_iff (modes : List PresentModeKHR) :
    checkMailboxSupport modes = true ↔ PresentModeKHR.MAILBOX ∈ modes := by
  induction modes with
  | nil => simp [checkMailboxSupport]
  | cons m rest ih =>
    by_cases h : m = PresentModeKHR.MAILBOX
    · simp [checkMailboxSupport, h]
    · simp [checkMailboxSupport, h, ih]
      exact fun hmm => absurd hmm.symm h

/-- Claim C7: the swapchain's present mode is MAILBOX exactly when the
selected adapter advertised mailbox support, FIFO otherwise, and IMMEDIATE
is never selected. -/
theorem C7_present_mode_selection (modes : List PresentModeKHR) :
    selectPresentMode (checkMailboxSupport modes)
      = (if PresentModeKHR.MAILBOX ∈ modes then PresentModeKHR.MAILBOX
         else PresentModeKHR.FIFO)
    ∧ selectPresentMode (checkMailboxSupport modes) ≠ PresentModeKHR.IMMEDIATE := by
  constructor
  · by_cases h : PresentModeKHR.MAILBOX ∈ modes
    · simp [h, selectPresentMode, (checkMailboxSupport_iff modes).mpr h]
    · have hfalse : checkMailboxSupport modes = false := by
        cases hcm : checkMailboxSupport modes
        · rfl
        · exact absurd ((checkMailboxSupport_iff modes).mp hcm) h
      simp [h, selectPresentMode, hfalse]
  · cases hcm : checkMailboxSupport modes <;> simp [selectPresentMode]

/-! ### Claim C10 -/

/-- Claim C10: swapchain recreation replaces the stored swapchain device,
handle, extent and format with the newly negotiated ones, but leaves the
stored image_count field unchanged, whatever image count the new swapchain
negotiated. -/
theorem C10_recreate_keeps_image_count (s n : SwapChain) :
    (s.createSwapchain n).imageCount = s.imageCount
    ∧ (s.createSwapchain n).device = n.device
    ∧ (s.createSwapchain n).obj = n.obj
    ∧ (s.createSwapchain n).extentW = n.extentW
    ∧ (s.createSwapchain n).extentH = n.extentH
    ∧ (s.createSwapchain n).format = n.format :=
  ⟨rfl, rfl, rfl, rfl, rfl, rfl⟩

end Gamekit
